import Mathlib

set_option linter.unusedVariables false

/-!
Shallow embedding of the AI provider dispatcher of the local-Notion
note-taking application (Go sources `src/ai/ai.go`, `src/ai/gemini.go`,
the Ollama and Hugging Face adapter files, and `src/app.go`).

Network I/O is modelled by an oracle: each adapter receives a stream
`net : Nat → HttpResult β` giving, for the n-th HTTP request the adapter
would issue, either a transport error or a response (status code, raw
body text, and the body as the adapter's JSON decoder would see it).
Each adapter returns its result together with the number of HTTP
requests it issued, so that single-attempt properties are provable.
The dispatcher returns the result string together with the ordered list
of provider adapters it actually invoked.
-/

deriving instance DecidableEq for Except

namespace LocalNotion

/-- Outcome of one HTTP POST: a transport-level failure (`client.Post`
returned an error) or a response with status code, raw body string and
the decoded body. -/
inductive HttpResult (β : Type) where
  | transportError (msg : String)
  | response (status : Nat) (raw : String) (body : β)
deriving DecidableEq

/-- The Gemini response body as `json.Unmarshal` into `GeminiResponse`
sees it: either a JSON parse failure, or a parsed value with the
optional `Error.Message` field and the list of candidates, each a list
of part texts. -/
inductive GeminiParse where
  | malformed (msg : String)
  | parsed (apiError : Option String) (candidates : List (List String))
deriving DecidableEq

/-- The Hugging Face text response body: a JSON parse failure, or the
array of objects' `generated_text` fields. -/
inductive HFParse where
  | malformed (msg : String)
  | parsed (generations : List String)
deriving DecidableEq

/-- `CallGemini` from `src/ai/gemini.go`: empty key is an error with no
request; otherwise one POST; HTTP 429 is "rate limited", any other
non-200 status is an API error; then parse, check the error field, and
extract the first part text of the first candidate. -/
def geminiClassify (r : HttpResult GeminiParse) : Except String String :=
  match r with
  | .transportError m => .error ("network error: " ++ m)
  | .response status _raw body =>
    if status = 429 then .error "rate limited"
    else if status ≠ 200 then .error ("API error: status " ++ toString status)
    else
      match body with
      | .malformed m => .error ("parse error: " ++ m)
      | .parsed (some msg) _ => .error ("API error: " ++ msg)
      | .parsed none candidates =>
        match candidates with
        | (t :: _) :: _ => .ok t
        | _ => .error "empty response"

def CallGemini (prompt apiKey : String) (net : Nat → HttpResult GeminiParse) :
    Except String String × Nat :=
  if apiKey = "" then (.error "no Gemini API key configured", 0)
  else (geminiClassify (net 0), 1)

/-- `CallHuggingFaceText`/`callHuggingFaceAPI` from the Hugging Face
adapter: empty key is an error with no request; otherwise one POST;
503 is "model loading", 429 is "rate limited", any other non-200 is an
API error carrying the raw body; then the first `generated_text` is
returned when non-empty. -/
def hfClassify (r : HttpResult HFParse) : Except String String :=
  match r with
  | .transportError m => .error ("network error: " ++ m)
  | .response status raw body =>
    if status = 503 then .error "model loading, try again"
    else if status = 429 then .error "rate limited"
    else if status ≠ 200 then
      .error ("API error: status " ++ toString status ++ " - " ++ raw)
    else
      match body with
      | .malformed m => .error ("parse error: " ++ m)
      | .parsed generations =>
        match generations with
        | g :: _ =>
          if g = "" then .error "empty response from Hugging Face"
          else .ok g
        | [] => .error "empty response from Hugging Face"

def CallHuggingFaceText (prompt apiKey : String) (net : Nat → HttpResult HFParse) :
    Except String String × Nat :=
  if apiKey = "" then (.error "no Hugging Face API key configured", 0)
  else (hfClassify (net 0), 1)

/-- `CallOllama` from the Ollama adapter: always one POST (no key); a
transport failure is a connection error; the status code is never
inspected; the body's `response` field (empty when JSON unmarshalling
fails, since the error is ignored) must be non-empty. -/
def ollamaClassify (r : HttpResult String) : Except String String :=
  match r with
  | .transportError m => .error ("Ollama connection error: " ++ m)
  | .response _status _raw respField =>
    if respField = "" then .error "no response from Ollama"
    else .ok respField

def CallOllama (prompt : String) (net : Nat → HttpResult String) :
    Except String String × Nat :=
  (ollamaClassify (net 0), 1)

/-- The three providers in the dispatcher's fixed priority order. -/
inductive Provider where
  | gemini
  | hf
  | ollama
deriving DecidableEq

/-- The environment of one dispatch call: the two resolved credentials
(the results of `GetGeminiAPIKey`/`GetHuggingFaceAPIKey`) and each
provider's HTTP oracle. -/
structure ProviderEnv where
  geminiKey : String
  hfKey : String
  gemini : Nat → HttpResult GeminiParse
  hf : Nat → HttpResult HFParse
  ollama : Nat → HttpResult String

/-- The final block of `CallAI` from `src/ai/ai.go` ("Fallback to
Ollama"): Ollama's error becomes the fixed "Error: All AI providers
failed. " message, its success is returned as-is. -/
def ollamaFallback (prompt : String) (env : ProviderEnv) : String × List Provider :=
  match (CallOllama prompt env.ollama).1 with
  | .error e => ("Error: All AI providers failed. " ++ e, [Provider.ollama])
  | .ok r => (r, [Provider.ollama])

/-- The middle block of `CallAI` ("Try Hugging Face second"): skipped
entirely when the resolved key is empty; a nil-error non-empty result
is returned immediately, anything else falls through to Ollama. -/
def hfFallback (prompt : String) (env : ProviderEnv) : String × List Provider :=
  if env.hfKey = "" then ollamaFallback prompt env
  else
    match (CallHuggingFaceText prompt env.hfKey env.hf).1 with
    | .ok r =>
      if r = "" then
        ((ollamaFallback prompt env).1, Provider.hf :: (ollamaFallback prompt env).2)
      else (r, [Provider.hf])
    | .error _ =>
      ((ollamaFallback prompt env).1, Provider.hf :: (ollamaFallback prompt env).2)

/-- `CallAI` from `src/ai/ai.go`: try Gemini when its key is non-empty,
then Hugging Face when its key is non-empty, each returned immediately
on a nil-error, non-empty result; finally Ollama. Returns the result
string and the ordered list of adapters invoked. -/
def CallAI (prompt : String) (env : ProviderEnv) : String × List Provider :=
  if env.geminiKey = "" then hfFallback prompt env
  else
    match (CallGemini prompt env.geminiKey env.gemini).1 with
    | .ok r =>
      if r = "" then
        ((hfFallback prompt env).1, Provider.gemini :: (hfFallback prompt env).2)
      else (r, [Provider.gemini])
    | .error _ =>
      ((hfFallback prompt env).1, Provider.gemini :: (hfFallback prompt env).2)

/-- The dispatcher's short-circuit test on a provider result: nil error
and non-empty text (`err == nil && result != ""`). -/
def isNonemptySuccess : Except String String → Bool
  | .ok t => !(t == "")
  | .error _ => false

/-! ### Credential resolution (`GetGeminiAPIKey` / `GetHuggingFaceAPIKey`)

The process environment and the config file are the two inputs:
`envVar` is the value of the provider's environment variable (`""` when
unset, as `os.Getenv` reports) and `configFile` is `some contents` when
the provider's file under `~/.apostrophe` is readable, `none` otherwise
(Go's `os.ReadFile` error branch). Go's `strings.TrimSpace` is modelled
by `trimSpace` over the ASCII whitespace characters. -/

/-- The ASCII whitespace characters recognised by Go's
`unicode.IsSpace` (the non-ASCII space code points are out of scope for
credential strings). -/
def isSpaceChar (c : Char) : Bool :=
  c = ' ' ∨ c = '\t' ∨ c = '\n' ∨ c = '\r' ∨ c = '\x0b' ∨ c = '\x0c'

/-- Go's `strings.TrimSpace`: drop whitespace from both ends. -/
def trimSpace (s : String) : String :=
  String.mk (((s.data.dropWhile isSpaceChar).reverse.dropWhile isSpaceChar).reverse)

/-- `GetGeminiAPIKey` from `src/ai/ai.go`: the environment variable is
returned as-is when non-empty; otherwise the config file's contents are
trimmed; otherwise the empty string. -/
def GetGeminiAPIKey (envVar : String) (configFile : Option String) : String :=
  if envVar ≠ "" then envVar
  else
    match configFile with
    | some data => trimSpace data
    | none => ""

/-- `GetHuggingFaceAPIKey` from `src/ai/ai.go`: same structure as
`GetGeminiAPIKey`, reading `HUGGINGFACE_API_KEY` and `hf_key.txt`. -/
def GetHuggingFaceAPIKey (envVar : String) (configFile : Option String) : String :=
  if envVar ≠ "" then envVar
  else
    match configFile with
    | some data => trimSpace data
    | none => ""

/-! ### Credential persistence (`SetGeminiAPIKey` / `SetHuggingFaceAPIKey`)

The file system is a list of directories and a map from path to
(contents, permission bits). `os.MkdirAll(dir, 0755)` adds the
directory when absent; `os.WriteFile(path, data, 0600)` replaces the
file entry with the given permission bits. `os.UserHomeDir` may fail,
so the home directory is an `Except`. -/

/-- A shallow file-system state: directories that exist and files as
(path, contents, unix permission bits). -/
structure FS where
  dirs : List String
  files : List (String × String × Nat)

/-- `os.MkdirAll`: the directory exists afterwards. -/
def FS.mkdirAll (fs : FS) (dir : String) : FS :=
  { fs with dirs := if dir ∈ fs.dirs then fs.dirs else dir :: fs.dirs }

/-- `os.WriteFile`: replace any entry at `path` with the new contents
and permission bits. -/
def FS.writeFile (fs : FS) (path contents : String) (perm : Nat) : FS :=
  { fs with files := (path, contents, perm) :: fs.files.filter (fun e => e.1 ≠ path) }

/-- Look up a file's (contents, permission bits). -/
def FS.lookupFile (fs : FS) (path : String) : Option (String × Nat) :=
  (fs.files.find? (fun e => e.1 = path)).map (fun e => e.2)

/-- `SetGeminiAPIKey` from `src/ai/ai.go`: fail only when the home
directory is unavailable; otherwise create `~/.apostrophe` (mode 0755)
and write the key verbatim to `gemini_key.txt` with mode 0600. -/
def SetGeminiAPIKey (home : Except String String) (apiKey : String) (fs : FS) :
    Except String FS :=
  match home with
  | .error e => .error e
  | .ok homeDir =>
    let configDir := homeDir ++ "/.apostrophe"
    let fs := fs.mkdirAll configDir
    .ok (fs.writeFile (configDir ++ "/gemini_key.txt") apiKey 0o600)

/-- `SetHuggingFaceAPIKey` from `src/ai/ai.go`: same as
`SetGeminiAPIKey` with target file `hf_key.txt`. -/
def SetHuggingFaceAPIKey (home : Except String String) (apiKey : String) (fs : FS) :
    Except String FS :=
  match home with
  | .error e => .error e
  | .ok homeDir =>
    let configDir := homeDir ++ "/.apostrophe"
    let fs := fs.mkdirAll configDir
    .ok (fs.writeFile (configDir ++ "/hf_key.txt") apiKey 0o600)

/-! ### Audio transcription (`TranscribeAudio`)

`strings.Index(s, ",")` is modelled by `commaIdx` on the character
list; Go's `base64.StdEncoding.DecodeString` by `base64Decode`
(standard alphabet, `\r`/`\n` ignored, strict `=` padding at the end,
non-canonical trailing bits masked off as Go's non-strict decoder
does). -/

/-- Index of the first comma, `strings.Index(s, ",")`. -/
def commaIdx : List Char → Option Nat
  | [] => none
  | c :: cs => if c = ',' then some 0 else (commaIdx cs).map (· + 1)

/-- The data-URI stripping step of `TranscribeAudio`: everything after
the first comma when one exists, the whole string otherwise. -/
def stripDataURI (s : String) : String :=
  match commaIdx s.data with
  | some i => String.mk (s.data.drop (i + 1))
  | none => s

/-- Value of a character in the standard base64 alphabet. -/
def b64Val (c : Char) : Option Nat :=
  if 'A' ≤ c ∧ c ≤ 'Z' then some (c.toNat - 65)
  else if 'a' ≤ c ∧ c ≤ 'z' then some (c.toNat - 71)
  else if '0' ≤ c ∧ c ≤ '9' then some (c.toNat + 4)
  else if c = '+' then some 62
  else if c = '/' then some 63
  else none

/-- Decode base64 4-character quanta into bytes; `=` padding is only
legal at the very end (`xx==` for one byte, `xxx=` for two). -/
def b64Quanta : List Char → Option (List Nat)
  | [] => some []
  | a :: b :: c :: d :: rest =>
    match b64Val a, b64Val b with
    | some va, some vb =>
      if c = '=' then
        if d = '=' ∧ rest = [] then some [va * 4 + vb / 16]
        else none
      else
        match b64Val c with
        | some vc =>
          if d = '=' then
            if rest = [] then some [va * 4 + vb / 16, (vb % 16) * 16 + vc / 4]
            else none
          else
            match b64Val d with
            | some vd =>
              (b64Quanta rest).map
                (fun t => (va * 4 + vb / 16) :: ((vb % 16) * 16 + vc / 4) ::
                  ((vc % 4) * 64 + vd) :: t)
            | none => none
        | none => none
    | _, _ => none
  | _ => none

/-- `base64.StdEncoding.DecodeString`: drop `\r` and `\n`, then decode
the quanta; `none` is Go's `CorruptInputError`. -/
def base64Decode (s : String) : Option (List Nat) :=
  b64Quanta (s.data.filter (fun c => c ≠ '\r' ∧ c ≠ '\n'))

/-- `TranscribeAudio` from the Hugging Face adapter: empty key is an
error with no request; strip a possible data-URI prefix, base64-decode
(failure is "invalid audio data" with no request); otherwise one POST
to the Whisper model; non-200 is an error carrying the raw body; the
parsed body's `text` field is returned (empty when unmarshalling
fails, since the error is ignored). -/
def TranscribeAudio (audioBase64 apiKey : String) (net : Nat → HttpResult String) :
    Except String String × Nat :=
  if apiKey = "" then (.error "no Hugging Face API key configured", 0)
  else
    match base64Decode (stripDataURI audioBase64) with
    | none => (.error "invalid audio data", 0)
    | some _audioData =>
      match net 0 with
      | .transportError m => (.error ("network error: " ++ m), 1)
      | .response status raw text =>
        if status ≠ 200 then
          (.error ("whisper API error: " ++ toString status ++ " - " ++ raw), 1)
        else (.ok text, 1)

/-! ### The duplicate dispatcher in `src/app.go`

`App.callAI` re-implements the fallback chain: it always invokes each
adapter in turn, the adapter itself resolving the credential and
failing with "no ... API key configured" when it is empty. The adapter
bodies (`App.callGemini`, `App.callHuggingFaceText` via
`callHuggingFaceAPI`, `App.callOllama`) are line-for-line the same
logic as the `ai` package's, so they are embedded with the same
structure, as separate definitions. -/

/-- Response handling of `App.callGemini` from `src/app.go` (same
logic as the `ai` package's, re-implemented there). -/
def appGeminiClassify (r : HttpResult GeminiParse) : Except String String :=
  match r with
  | .transportError m => .error ("network error: " ++ m)
  | .response status _raw body =>
    if status = 429 then .error "rate limited"
    else if status ≠ 200 then .error ("API error: status " ++ toString status)
    else
      match body with
      | .malformed m => .error ("parse error: " ++ m)
      | .parsed (some msg) _ => .error ("API error: " ++ msg)
      | .parsed none candidates =>
        match candidates with
        | (t :: _) :: _ => .ok t
        | _ => .error "empty response"

/-- `App.callGemini` from `src/app.go`. -/
def callGemini (prompt apiKey : String) (net : Nat → HttpResult GeminiParse) :
    Except String String × Nat :=
  if apiKey = "" then (.error "no Gemini API key configured", 0)
  else (appGeminiClassify (net 0), 1)

/-- Response handling of `App.callHuggingFaceAPI` from `src/app.go`. -/
def appHFClassify (r : HttpResult HFParse) : Except String String :=
  match r with
  | .transportError m => .error ("network error: " ++ m)
  | .response status raw body =>
    if status = 503 then .error "model loading, try again"
    else if status = 429 then .error "rate limited"
    else if status ≠ 200 then
      .error ("API error: status " ++ toString status ++ " - " ++ raw)
    else
      match body with
      | .malformed m => .error ("parse error: " ++ m)
      | .parsed generations =>
        match generations with
        | g :: _ =>
          if g = "" then .error "empty response from Hugging Face"
          else .ok g
        | [] => .error "empty response from Hugging Face"

/-- `App.callHuggingFaceText` (through `App.callHuggingFaceAPI`) from
`src/app.go`. -/
def callHuggingFaceText (prompt apiKey : String) (net : Nat → HttpResult HFParse) :
    Except String String × Nat :=
  if apiKey = "" then (.error "no Hugging Face API key configured", 0)
  else (appHFClassify (net 0), 1)

/-- Response handling of `App.callOllama` from `src/app.go`. -/
def appOllamaClassify (r : HttpResult String) : Except String String :=
  match r with
  | .transportError m => .error ("Ollama connection error: " ++ m)
  | .response _status _raw respField =>
    if respField = "" then .error "no response from Ollama"
    else .ok respField

/-- `App.callOllama` from `src/app.go`. -/
def callOllama (prompt : String) (net : Nat → HttpResult String) :
    Except String String × Nat :=
  (appOllamaClassify (net 0), 1)

/-- The final block of `App.callAI` ("Fallback to Ollama"). -/
def appOllamaStep (prompt : String) (env : ProviderEnv) : String :=
  match (callOllama prompt env.ollama).1 with
  | .error e => "Error: All AI providers failed. " ++ e
  | .ok r => r

/-- The middle block of `App.callAI` ("Try Hugging Face second"): the
adapter is invoked unconditionally and rejects an empty key itself. -/
def appHfStep (prompt : String) (env : ProviderEnv) : String :=
  match (callHuggingFaceText prompt env.hfKey env.hf).1 with
  | .ok r => if r = "" then appOllamaStep prompt env else r
  | .error _ => appOllamaStep prompt env

/-- `App.callAI` from `src/app.go`: invoke Gemini, Hugging Face, then
Ollama unconditionally (each adapter checks its own key), returning the
first nil-error non-empty result, or the fixed failure message with
Ollama's error. -/
def callAI (prompt : String) (env : ProviderEnv) : String :=
  match (callGemini prompt env.geminiKey env.gemini).1 with
  | .ok r => if r = "" then appHfStep prompt env else r
  | .error _ => appHfStep prompt env

/-! ### Concrete environments used to instantiate the theorems below -/

/-- Gemini configured and answering. -/
def geminiOkEnv : ProviderEnv where
  geminiKey := "gk"
  hfKey := "hk"
  gemini := fun _ => .response 200 "raw" (.parsed none [["gemini text"]])
  hf := fun _ => .response 200 "raw" (.parsed ["hf text"])
  ollama := fun _ => .response 200 "{}" "ollama text"

/-- No credentials configured, local model responsive. -/
def noKeysEnv : ProviderEnv where
  geminiKey := ""
  hfKey := ""
  gemini := fun _ => .transportError "unreachable"
  hf := fun _ => .transportError "unreachable"
  ollama := fun _ => .response 200 "{}" "local hello"

/-- Gemini configured but rate-limited, no Hugging Face key, Ollama
returning an empty body: every tried provider fails. -/
def allFailEnv : ProviderEnv where
  geminiKey := "gk"
  hfKey := ""
  gemini := fun _ => .response 429 "" (.parsed none [])
  hf := fun _ => .transportError "unused"
  ollama := fun _ => .response 200 "{}" ""

/-- Gemini configured but rate-limited, Hugging Face configured and
answering. -/
def rateLimitEnv : ProviderEnv where
  geminiKey := "gk"
  hfKey := "hk"
  gemini := fun _ => .response 429 "" (.parsed none [])
  hf := fun _ => .response 200 "raw" (.parsed ["hf text"])
  ollama := fun _ => .response 200 "{}" "ollama text"

/-! ### Helper lemmas -/

theorem CallGemini_empty_key (p : String) (net : Nat → HttpResult GeminiParse) :
    CallGemini p "" net = (.error "no Gemini API key configured", 0) := rfl

theorem CallHuggingFaceText_empty_key (p : String) (net : Nat → HttpResult HFParse) :
    CallHuggingFaceText p "" net = (.error "no Hugging Face API key configured", 0) := rfl

theorem CallOllama_ok_nonempty (p : String) (net : Nat → HttpResult String)
    (t : String) (h : (CallOllama p net).1 = .ok t) : t ≠ "" := by
  unfold CallOllama ollamaClassify at h
  cases hn : net 0 with
  | transportError m => rw [hn] at h; simp at h
  | response st raw f =>
    rw [hn] at h
    by_cases hf : f = ""
    · simp [hf] at h
    · simp [hf] at h
      exact h ▸ hf

theorem ollamaFallback_error (p : String) (env : ProviderEnv) (e : String)
    (h : (CallOllama p env.ollama).1 = .error e) :
    ollamaFallback p env =
      ("Error: All AI providers failed. " ++ e, [Provider.ollama]) := by
  unfold ollamaFallback
  rw [h]

theorem ollamaFallback_ok (p : String) (env : ProviderEnv) (t : String)
    (h : (CallOllama p env.ollama).1 = .ok t) :
    ollamaFallback p env = (t, [Provider.ollama]) := by
  unfold ollamaFallback
  rw [h]

theorem ollamaFallback_trace (p : String) (env : ProviderEnv) :
    (ollamaFallback p env).2 = [Provider.ollama] := by
  unfold ollamaFallback
  cases h : (CallOllama p env.ollama).1 <;> rfl

theorem errorPrefix_append_ne_empty (e : String) :
    "Error: All AI providers failed. " ++ e ≠ "" := by
  intro hc
  have hd : ("Error: All AI providers failed. " ++ e).data = "".data :=
    congrArg String.data hc
  rw [String.data_append, List.append_eq_nil] at hd
  exact absurd hd.1 (by decide)

theorem ollamaFallback_fst_nonempty (p : String) (env : ProviderEnv) :
    (ollamaFallback p env).1 ≠ "" := by
  cases h : (CallOllama p env.ollama).1 with
  | error e =>
    rw [ollamaFallback_error p env e h]
    exact errorPrefix_append_ne_empty e
  | ok t =>
    rw [ollamaFallback_ok p env t h]
    exact CallOllama_ok_nonempty p env.ollama t h

theorem hfFallback_skip (p : String) (env : ProviderEnv) (h : env.hfKey = "") :
    hfFallback p env = ollamaFallback p env := by
  unfold hfFallback
  rw [if_pos h]

theorem hfFallback_success (p : String) (env : ProviderEnv) (t : String)
    (hk : env.hfKey ≠ "") (h : (CallHuggingFaceText p env.hfKey env.hf).1 = .ok t)
    (ht : t ≠ "") : hfFallback p env = (t, [Provider.hf]) := by
  unfold hfFallback
  rw [if_neg hk, h]
  simp [ht]

theorem hfFallback_fst_of_fail (p : String) (env : ProviderEnv)
    (h : isNonemptySuccess (CallHuggingFaceText p env.hfKey env.hf).1 = false) :
    (hfFallback p env).1 = (ollamaFallback p env).1 := by
  unfold hfFallback
  by_cases hk : env.hfKey = ""
  · rw [if_pos hk]
  · rw [if_neg hk]
    cases hr : (CallHuggingFaceText p env.hfKey env.hf).1 with
    | error e => rfl
    | ok t =>
      rw [hr] at h
      simp [isNonemptySuccess] at h
      simp [h]

theorem hfFallback_trace_cases (p : String) (env : ProviderEnv) :
    (hfFallback p env).2 = [Provider.ollama] ∨
    (hfFallback p env).2 = [Provider.hf] ∨
    (hfFallback p env).2 = [Provider.hf, Provider.ollama] := by
  unfold hfFallback
  by_cases hk : env.hfKey = ""
  · rw [if_pos hk]
    exact Or.inl (ollamaFallback_trace p env)
  · rw [if_neg hk]
    cases hr : (CallHuggingFaceText p env.hfKey env.hf).1 with
    | error e =>
      right; right
      simp [ollamaFallback_trace]
    | ok t =>
      by_cases ht : t = ""
      · right; right
        simp [ht, ollamaFallback_trace]
      · right; left
        simp [ht]

theorem CallAI_trace_cases (p : String) (env : ProviderEnv) :
    (CallAI p env).2 = (hfFallback p env).2 ∨
    (CallAI p env).2 = [Provider.gemini] ∨
    (CallAI p env).2 = Provider.gemini :: (hfFallback p env).2 := by
  unfold CallAI
  by_cases hk : env.geminiKey = ""
  · rw [if_pos hk]; exact Or.inl rfl
  · rw [if_neg hk]
    cases hr : (CallGemini p env.geminiKey env.gemini).1 with
    | error e => right; right; rfl
    | ok t =>
      by_cases ht : t = ""
      · right; right; simp [ht]
      · right; left; simp [ht]

theorem CallAI_fst_of_gemini_fail (p : String) (env : ProviderEnv)
    (h : isNonemptySuccess (CallGemini p env.geminiKey env.gemini).1 = false) :
    (CallAI p env).1 = (hfFallback p env).1 := by
  unfold CallAI
  by_cases hk : env.geminiKey = ""
  · rw [if_pos hk]
  · rw [if_neg hk]
    cases hr : (CallGemini p env.geminiKey env.gemini).1 with
    | error e => rfl
    | ok t =>
      rw [hr] at h
      simp [isNonemptySuccess] at h
      simp [h]

/-- When no provider succeeds, the dispatcher returns the fixed message
followed by Ollama's error only. -/
theorem CallAI_allFailed (p : String) (env : ProviderEnv) (e : String)
    (hg : isNonemptySuccess (CallGemini p env.geminiKey env.gemini).1 = false)
    (hh : isNonemptySuccess (CallHuggingFaceText p env.hfKey env.hf).1 = false)
    (ho : (CallOllama p env.ollama).1 = .error e) :
    (CallAI p env).1 = "Error: All AI providers failed. " ++ e := by
  rw [CallAI_fst_of_gemini_fail p env hg, hfFallback_fst_of_fail p env hh,
    ollamaFallback_error p env e ho]

/-- Does `needle` occur at the head of `hay`? -/
def strStartsAt : List Char → List Char → Bool
  | [], _ => true
  | _ :: _, [] => false
  | a :: as, b :: bs => a = b && strStartsAt as bs

/-- Does `needle` occur anywhere in `hay`? -/
def strContainsAux (needle : List Char) : List Char → Bool
  | [] => strStartsAt needle []
  | c :: cs => strStartsAt needle (c :: cs) || strContainsAux needle cs

/-- Substring test used to state that a provider's failure reason does
not appear in the dispatcher's failure message. -/
def strContains (hay needle : String) : Bool := strContainsAux needle.data hay.data

/-! ### Claims -/

/-- C1: the dispatcher tries providers in the fixed priority order
Gemini, Hugging Face, Ollama (the invocation trace is always a
subsequence of that order); a Gemini success with non-empty text is
returned immediately with no other adapter invoked; and when Gemini did
not produce a non-empty success, a Hugging Face success with non-empty
text is returned with the Ollama adapter never invoked. -/
theorem CallAI_first_success_short_circuit (p : String) (env : ProviderEnv) :
    List.Sublist (CallAI p env).2 [Provider.gemini, Provider.hf, Provider.ollama] ∧
    (∀ t : String, env.geminiKey ≠ "" →
      (CallGemini p env.geminiKey env.gemini).1 = .ok t → t ≠ "" →
      CallAI p env = (t, [Provider.gemini])) ∧
    (∀ t : String,
      isNonemptySuccess (CallGemini p env.geminiKey env.gemini).1 = false →
      env.hfKey ≠ "" →
      (CallHuggingFaceText p env.hfKey env.hf).1 = .ok t → t ≠ "" →
      (CallAI p env).1 = t ∧ Provider.ollama ∉ (CallAI p env).2) := by
  refine ⟨?_, ?_, ?_⟩
  · rcases CallAI_trace_cases p env with h | h | h
    · rw [h]
      rcases hfFallback_trace_cases p env with h2 | h2 | h2 <;> rw [h2] <;> decide
    · rw [h]; decide
    · rw [h]
      rcases hfFallback_trace_cases p env with h2 | h2 | h2 <;> rw [h2] <;> decide
  · intro t hk hok ht
    unfold CallAI
    rw [if_neg hk, hok]
    simp [ht]
  · intro t hg hk hok ht
    have h1 : (CallAI p env).1 = (hfFallback p env).1 :=
      CallAI_fst_of_gemini_fail p env hg
    have h2 : hfFallback p env = (t, [Provider.hf]) :=
      hfFallback_success p env t hk hok ht
    refine ⟨by rw [h1, h2], ?_⟩
    intro hmem
    rcases CallAI_trace_cases p env with h | h | h <;> rw [h] at hmem
    · rw [h2] at hmem; simp at hmem
    · simp at hmem
    · rw [h2] at hmem; simp at hmem

/-- C1 witness: Gemini configured and answering "gemini text"; the
dispatcher returns it and invokes only the Gemini adapter. -/
theorem CallAI_first_success_short_circuit_witness :
    geminiOkEnv.geminiKey ≠ "" ∧
    (CallGemini "p" geminiOkEnv.geminiKey geminiOkEnv.gemini).1 = .ok "gemini text" ∧
    CallAI "p" geminiOkEnv = ("gemini text", [Provider.gemini]) :=
  ⟨by decide, by decide,
    (CallAI_first_success_short_circuit "p" geminiOkEnv).2.1 "gemini text"
      (by decide) (by decide) (by decide)⟩

/-- C2 counterexample: with Gemini tried and failing with reason "rate
limited", Hugging Face unconfigured, and Ollama failing, the returned
failure string is only the fixed prefix plus Ollama's error; the first
provider's failure reason does not occur in it, so the message does not
concatenate all provider failures. -/
theorem CallAI_failure_concat_counterexample :
    (CallGemini "p" allFailEnv.geminiKey allFailEnv.gemini).1 = .error "rate limited" ∧
    Provider.gemini ∈ (CallAI "p" allFailEnv).2 ∧
    (CallAI "p" allFailEnv).1 =
      "Error: All AI providers failed. no response from Ollama" ∧
    strContains (CallAI "p" allFailEnv).1 "rate limited" = false := by decide

/-- C2 amended: when every provider fails, the dispatcher's returned
failure string is the fixed marker "Error: All AI providers failed. "
followed by the final provider's (Ollama's) error detail only; the
earlier providers' failure reasons are logged but not included. -/
theorem CallAI_failure_message_last_error_only (p : String) (env : ProviderEnv)
    (e : String)
    (hg : isNonemptySuccess (CallGemini p env.geminiKey env.gemini).1 = false)
    (hh : isNonemptySuccess (CallHuggingFaceText p env.hfKey env.hf).1 = false)
    (ho : (CallOllama p env.ollama).1 = .error e) :
    (CallAI p env).1 = "Error: All AI providers failed. " ++ e :=
  CallAI_allFailed p env e hg hh ho

/-- C2 witness: the all-failed environment instantiates the amended
theorem with Ollama's error "no response from Ollama". -/
theorem CallAI_failure_message_last_error_only_witness :
    isNonemptySuccess (CallGemini "p" allFailEnv.geminiKey allFailEnv.gemini).1 = false ∧
    isNonemptySuccess (CallHuggingFaceText "p" allFailEnv.hfKey allFailEnv.hf).1 = false ∧
    (CallOllama "p" allFailEnv.ollama).1 = .error "no response from Ollama" ∧
    (CallAI "p" allFailEnv).1 =
      "Error: All AI providers failed. " ++ "no response from Ollama" :=
  ⟨by decide, by decide, by decide,
    CallAI_failure_message_last_error_only "p" allFailEnv "no response from Ollama"
      (by decide) (by decide) (by decide)⟩

/-- C3: the dispatcher is a total function into `String` (it never
raises: failure is encoded in the returned string), and whenever no
provider produces a usable result the returned string starts with the
fixed failure marker "Error:". -/
theorem CallAI_total_failure_marker (p : String) (env : ProviderEnv) (e : String)
    (hg : isNonemptySuccess (CallGemini p env.geminiKey env.gemini).1 = false)
    (hh : isNonemptySuccess (CallHuggingFaceText p env.hfKey env.hf).1 = false)
    (ho : (CallOllama p env.ollama).1 = .error e) :
    ∃ rest : String, (CallAI p env).1 = "Error:" ++ rest := by
  refine ⟨" All AI providers failed. " ++ e, ?_⟩
  rw [CallAI_allFailed p env e hg hh ho]
  apply String.ext
  rw [String.data_append, String.data_append, String.data_append,
    ← List.append_assoc]
  congr 1

/-- C3 witness: in the all-failed environment the returned string
starts with the failure marker. -/
theorem CallAI_total_failure_marker_witness :
    isNonemptySuccess (CallGemini "p" allFailEnv.geminiKey allFailEnv.gemini).1 = false ∧
    (∃ rest : String, (CallAI "p" allFailEnv).1 = "Error:" ++ rest) :=
  ⟨by decide,
    CallAI_total_failure_marker "p" allFailEnv "no response from Ollama"
      (by decide) (by decide) (by decide)⟩

/-- The Hugging Face / Ollama fallback tail never contains the Gemini
adapter. -/
theorem gemini_not_mem_hfFallback (p : String) (env : ProviderEnv) :
    Provider.gemini ∉ (hfFallback p env).2 := by
  rcases hfFallback_trace_cases p env with h | h | h <;> rw [h] <;> decide

/-- With a non-empty Hugging Face key, the fallback tail invokes the
Hugging Face adapter. -/
theorem hf_mem_hfFallback (p : String) (env : ProviderEnv)
    (hk : env.hfKey ≠ "") : Provider.hf ∈ (hfFallback p env).2 := by
  unfold hfFallback
  rw [if_neg hk]
  cases hr : (CallHuggingFaceText p env.hfKey env.hf).1 with
  | error e => simp
  | ok t => by_cases ht : t = "" <;> simp [ht]

/-- C4 counterexample: with the Gemini environment variable set to
" k " — a value that is not whitespace-trimmed, and whose trim is
empty when it is all spaces — the resolver returns the raw value, so
(a) the returned credential is not whitespace-trimmed and (b) with the
all-spaces value " " a credential is returned even though neither
source yields a non-empty value after trimming. -/
theorem GetAPIKey_env_untrimmed_counterexample :
    GetGeminiAPIKey " k " (some "filekey") = " k " ∧
    trimSpace " k " ≠ " k " ∧
    GetGeminiAPIKey " " none = " " ∧
    trimSpace " " = "" ∧
    GetGeminiAPIKey " " none ≠ "" := by decide

/-- C4 amended: credential resolution checks the environment variable
first and returns it as-is — untrimmed — whenever it is non-empty; only
the config-file fallback is whitespace-trimmed; and the result is empty
exactly when the environment variable is empty and the config file is
absent or trims to empty. -/
theorem GetAPIKey_resolution_order (e : String) (f : Option String) :
    (e ≠ "" → GetGeminiAPIKey e f = e ∧ GetHuggingFaceAPIKey e f = e) ∧
    (e = "" → ∀ d : String, f = some d →
      GetGeminiAPIKey e f = trimSpace d ∧ GetHuggingFaceAPIKey e f = trimSpace d) ∧
    (e = "" → f = none →
      GetGeminiAPIKey e f = "" ∧ GetHuggingFaceAPIKey e f = "") ∧
    (GetGeminiAPIKey e f = "" ↔
      e = "" ∧ ∀ d : String, f = some d → trimSpace d = "") := by
  unfold GetGeminiAPIKey GetHuggingFaceAPIKey
  by_cases he : e = ""
  · subst he
    cases f with
    | none => simp
    | some d => simp
  · simp [he]

/-- C4 witness: a non-empty environment variable wins over a configured
file and is returned unchanged. -/
theorem GetAPIKey_resolution_order_witness :
    ("ENVKEY" : String) ≠ "" ∧
    GetGeminiAPIKey "ENVKEY" (some " filekey ") = "ENVKEY" :=
  ⟨by decide,
    ((GetAPIKey_resolution_order "ENVKEY" (some " filekey ")).1 (by decide)).1⟩

/-- C5: a credential-requiring provider whose credential is absent is
never invoked by the dispatcher (its adapter does not appear in the
invocation trace), while Ollama needs no credential; with zero
credentials and a responsive local model the dispatcher returns the
local model's text verbatim, having invoked only the Ollama adapter. -/
theorem CallAI_skip_unconfigured_providers (p : String) (env : ProviderEnv) :
    (env.geminiKey = "" → Provider.gemini ∉ (CallAI p env).2) ∧
    (env.hfKey = "" → Provider.hf ∉ (CallAI p env).2) ∧
    (∀ t : String, env.geminiKey = "" → env.hfKey = "" →
      (CallOllama p env.ollama).1 = .ok t →
      CallAI p env = (t, [Provider.ollama])) := by
  refine ⟨?_, ?_, ?_⟩
  · intro hk hmem
    unfold CallAI at hmem
    rw [if_pos hk] at hmem
    exact gemini_not_mem_hfFallback p env hmem
  · intro hk hmem
    have htr := hfFallback_skip p env hk
    rcases CallAI_trace_cases p env with h | h | h <;> rw [h] at hmem
    · rw [htr, ollamaFallback_trace] at hmem; simp at hmem
    · simp at hmem
    · rw [htr, ollamaFallback_trace] at hmem; simp at hmem
  · intro t hg hh hok
    unfold CallAI
    rw [if_pos hg, hfFallback_skip p env hh, ollamaFallback_ok p env t hok]

/-- C5 witness: with no credentials and a responsive local model, the
dispatcher returns "local hello" verbatim and only Ollama is invoked. -/
theorem CallAI_skip_unconfigured_providers_witness :
    noKeysEnv.geminiKey = "" ∧ noKeysEnv.hfKey = "" ∧
    (CallOllama "hello" noKeysEnv.ollama).1 = .ok "local hello" ∧
    CallAI "hello" noKeysEnv = ("local hello", [Provider.ollama]) :=
  ⟨rfl, rfl, by decide,
    (CallAI_skip_unconfigured_providers "hello" noKeysEnv).2.2 "local hello"
      rfl rfl (by decide)⟩

/-- C6 counterexample: not every adapter classifies HTTP 429 as a
rate-limited failure. The Ollama adapter never inspects the status
code: a 429 response whose body carries a non-empty `response` field is
classified as a success, and one with an empty field as the
"no response from Ollama" failure — never as "rate limited". -/
theorem CallOllama_429_not_rate_limited_counterexample :
    (CallOllama "p" (fun _ => .response 429 "{}" "still text")).1 = .ok "still text" ∧
    (CallOllama "p" (fun _ => .response 429 "{}" "")).1 =
      .error "no response from Ollama" ∧
    (CallOllama "p" (fun _ => .response 429 "{}" "still text")).1 ≠
      .error "rate limited" ∧
    (CallOllama "p" (fun _ => .response 429 "{}" "")).1 ≠
      .error "rate limited" := by decide

/-- C6 amended: each adapter issues at most one HTTP request per
invocation — exactly one whenever it gets past its credential check
(always, for Ollama) — with no internal retry; the credential-requiring
adapters (Gemini, Hugging Face) classify an HTTP 429 response as the
"rate limited" failure (the Ollama adapter never inspects the status
code); and when Gemini answers 429 the dispatcher invokes Gemini
exactly once and proceeds to the Hugging Face adapter. -/
theorem adapters_single_attempt_429_fallback :
    (∀ (p k : String) (net : Nat → HttpResult GeminiParse),
      (CallGemini p k net).2 ≤ 1 ∧ (k ≠ "" → (CallGemini p k net).2 = 1)) ∧
    (∀ (p k : String) (net : Nat → HttpResult HFParse),
      (CallHuggingFaceText p k net).2 ≤ 1 ∧
      (k ≠ "" → (CallHuggingFaceText p k net).2 = 1)) ∧
    (∀ (p : String) (net : Nat → HttpResult String), (CallOllama p net).2 = 1) ∧
    (∀ (p k : String) (net : Nat → HttpResult GeminiParse) (raw : String)
      (b : GeminiParse), k ≠ "" → net 0 = .response 429 raw b →
      (CallGemini p k net).1 = .error "rate limited") ∧
    (∀ (p k : String) (net : Nat → HttpResult HFParse) (raw : String)
      (b : HFParse), k ≠ "" → net 0 = .response 429 raw b →
      (CallHuggingFaceText p k net).1 = .error "rate limited") ∧
    (∀ (p : String) (env : ProviderEnv) (raw : String) (b : GeminiParse),
      env.geminiKey ≠ "" → env.hfKey ≠ "" →
      env.gemini 0 = .response 429 raw b →
      List.count Provider.gemini (CallAI p env).2 = 1 ∧
      Provider.hf ∈ (CallAI p env).2) := by
  refine ⟨?_, ?_, ?_, ?_, ?_, ?_⟩
  · intro p k net
    unfold CallGemini
    by_cases hk : k = "" <;> simp [hk]
  · intro p k net
    unfold CallHuggingFaceText
    by_cases hk : k = "" <;> simp [hk]
  · intro p net
    rfl
  · intro p k net raw b hk hnet
    unfold CallGemini
    rw [if_neg hk]
    show geminiClassify (net 0) = _
    rw [hnet]
    rfl
  · intro p k net raw b hk hnet
    unfold CallHuggingFaceText
    rw [if_neg hk]
    show hfClassify (net 0) = _
    rw [hnet]
    rfl
  · intro p env raw b hg hh hnet
    have hfail : (CallGemini p env.geminiKey env.gemini).1 = .error "rate limited" := by
      unfold CallGemini
      rw [if_neg hg]
      show geminiClassify (env.gemini 0) = _
      rw [hnet]
      rfl
    have htrace : (CallAI p env).2 = Provider.gemini :: (hfFallback p env).2 := by
      unfold CallAI
      rw [if_neg hg, hfail]
    rw [htrace]
    constructor
    · rw [List.count_cons_self,
        List.count_eq_zero.mpr (gemini_not_mem_hfFallback p env)]
    · exact List.mem_cons_of_mem _ (hf_mem_hfFallback p env hh)

/-- C6 witness: Gemini rate-limited, Hugging Face configured — Gemini
is invoked exactly once and the dispatcher proceeds to Hugging Face. -/
theorem adapters_single_attempt_429_fallback_witness :
    rateLimitEnv.geminiKey ≠ "" ∧ rateLimitEnv.hfKey ≠ "" ∧
    rateLimitEnv.gemini 0 = .response 429 "" (.parsed none []) ∧
    List.count Provider.gemini (CallAI "p" rateLimitEnv).2 = 1 ∧
    Provider.hf ∈ (CallAI "p" rateLimitEnv).2 :=
  ⟨by decide, by decide, rfl,
    (adapters_single_attempt_429_fallback.2.2.2.2.2 "p" rateLimitEnv ""
      (.parsed none []) (by decide) (by decide) rfl).1,
    (adapters_single_attempt_429_fallback.2.2.2.2.2 "p" rateLimitEnv ""
      (.parsed none []) (by decide) (by decide) rfl).2⟩

/-! ### C7 helpers: file-system model lemmas -/

theorem FS_mem_dirs_mkdirAll (fs : FS) (d : String) : d ∈ (fs.mkdirAll d).dirs := by
  unfold FS.mkdirAll
  by_cases hd : d ∈ fs.dirs <;> simp [hd]

theorem FS_dirs_writeFile (fs : FS) (p c : String) (perm : Nat) :
    (fs.writeFile p c perm).dirs = fs.dirs := rfl

theorem FS_lookupFile_writeFile (fs : FS) (p c : String) (perm : Nat) :
    (fs.writeFile p c perm).lookupFile p = some (c, perm) := by
  unfold FS.writeFile FS.lookupFile
  rw [List.find?_cons_of_pos]
  · rfl
  · simp

/-- C7: the credential persist operations write the given credential
verbatim (any string: no format validation) to the provider's flat file
under the fixed `~/.apostrophe` configuration directory, which exists
afterwards (created when absent), and the credential file carries
owner-only permissions 0600. -/
theorem SetAPIKey_persists_owner_only (home : Except String String)
    (apiKey h : String) (fs : FS) (hh : home = .ok h) :
    (∃ fs1 : FS, SetGeminiAPIKey home apiKey fs = .ok fs1 ∧
      (h ++ "/.apostrophe") ∈ fs1.dirs ∧
      fs1.lookupFile ((h ++ "/.apostrophe") ++ "/gemini_key.txt") =
        some (apiKey, 0o600)) ∧
    (∃ fs2 : FS, SetHuggingFaceAPIKey home apiKey fs = .ok fs2 ∧
      (h ++ "/.apostrophe") ∈ fs2.dirs ∧
      fs2.lookupFile ((h ++ "/.apostrophe") ++ "/hf_key.txt") =
        some (apiKey, 0o600)) := by
  subst hh
  constructor
  · refine ⟨_, rfl, ?_, ?_⟩
    · rw [FS_dirs_writeFile]
      exact FS_mem_dirs_mkdirAll fs (h ++ "/.apostrophe")
    · exact FS_lookupFile_writeFile (fs.mkdirAll (h ++ "/.apostrophe"))
        ((h ++ "/.apostrophe") ++ "/gemini_key.txt") apiKey 0o600
  · refine ⟨_, rfl, ?_, ?_⟩
    · rw [FS_dirs_writeFile]
      exact FS_mem_dirs_mkdirAll fs (h ++ "/.apostrophe")
    · exact FS_lookupFile_writeFile (fs.mkdirAll (h ++ "/.apostrophe"))
        ((h ++ "/.apostrophe") ++ "/hf_key.txt") apiKey 0o600

/-- C7 witness: on an empty file system, persisting the unvalidated
credential "sk raw key " creates the config directory and both
credential files with permissions 0600. -/
theorem SetAPIKey_persists_owner_only_witness :
    (∃ fs1 : FS,
      SetGeminiAPIKey (.ok "/home/user") "sk raw key " ⟨[], []⟩ = .ok fs1 ∧
      ("/home/user" ++ "/.apostrophe") ∈ fs1.dirs ∧
      fs1.lookupFile (("/home/user" ++ "/.apostrophe") ++ "/gemini_key.txt") =
        some ("sk raw key ", 0o600)) ∧
    (∃ fs2 : FS,
      SetHuggingFaceAPIKey (.ok "/home/user") "sk raw key " ⟨[], []⟩ = .ok fs2 ∧
      ("/home/user" ++ "/.apostrophe") ∈ fs2.dirs ∧
      fs2.lookupFile (("/home/user" ++ "/.apostrophe") ++ "/hf_key.txt") =
        some ("sk raw key ", 0o600)) :=
  SetAPIKey_persists_owner_only (.ok "/home/user") "sk raw key " "/home/user"
    ⟨[], []⟩ rfl

/-! ### C8 helpers: data-URI stripping and base64 failure -/

theorem commaIdx_append_cons (l r : List Char) (hl : ',' ∉ l) :
    commaIdx (l ++ ',' :: r) = some l.length := by
  induction l with
  | nil => simp [commaIdx]
  | cons a as ih =>
    rw [List.mem_cons, not_or] at hl
    simp [commaIdx, show a ≠ ',' from fun hc => hl.1 hc.symm, ih hl.2]

theorem commaIdx_none (l : List Char) (hl : ',' ∉ l) : commaIdx l = none := by
  induction l with
  | nil => rfl
  | cons a as ih =>
    rw [List.mem_cons, not_or] at hl
    simp [commaIdx, show a ≠ ',' from fun hc => hl.1 hc.symm, ih hl.2]

theorem stripDataURI_eq_of_commaIdx (s : String) (i : Nat)
    (h : commaIdx s.data = some i) :
    stripDataURI s = String.mk (s.data.drop (i + 1)) := by
  unfold stripDataURI
  rw [h]

theorem stripDataURI_eq_self (s : String) (h : commaIdx s.data = none) :
    stripDataURI s = s := by
  unfold stripDataURI
  rw [h]

theorem stripDataURI_of_comma (pre rest : String) (hpre : ',' ∉ pre.data) :
    stripDataURI (pre ++ "," ++ rest) = rest := by
  have hcomma : ("," : String).data = [','] := rfl
  have hdata : (pre ++ "," ++ rest).data = pre.data ++ ',' :: rest.data := by
    rw [String.data_append, String.data_append, hcomma]
    simp
  have hidx : commaIdx (pre ++ "," ++ rest).data = some pre.data.length := by
    rw [hdata]
    exact commaIdx_append_cons pre.data rest.data hpre
  rw [stripDataURI_eq_of_commaIdx _ _ hidx, hdata, List.append_cons]
  have hlen : pre.data.length + 1 = (pre.data ++ [',']).length := by simp
  rw [hlen, List.drop_left]

theorem stripDataURI_no_comma (s : String) (h : ',' ∉ s.data) :
    stripDataURI s = s :=
  stripDataURI_eq_self s (commaIdx_none s.data h)

theorem TranscribeAudio_decode_failure (s key : String)
    (net : Nat → HttpResult String) (hk : key ≠ "")
    (hdec : base64Decode (stripDataURI s) = none) :
    TranscribeAudio s key net = (.error "invalid audio data", 0) := by
  unfold TranscribeAudio
  rw [if_neg hk, hdec]

/-- C8: the transcription input handling — when the input contains a
comma, only the substring after the first comma is base64-decoded (the
data-URI prefix is stripped); otherwise the whole string is decoded;
and when decoding fails the operation returns an error having issued
zero HTTP requests. -/
theorem TranscribeAudio_strip_and_decode :
    (∀ pre rest : String, ',' ∉ pre.data →
      stripDataURI (pre ++ "," ++ rest) = rest) ∧
    (∀ s : String, ',' ∉ s.data → stripDataURI s = s) ∧
    (∀ (s key : String) (net : Nat → HttpResult String), key ≠ "" →
      base64Decode (stripDataURI s) = none →
      TranscribeAudio s key net = (.error "invalid audio data", 0)) :=
  ⟨stripDataURI_of_comma, stripDataURI_no_comma, TranscribeAudio_decode_failure⟩

/-- C8 witness: a data-URI-prefixed input is stripped to the part after
the comma; that part is not valid base64, and transcription fails with
zero HTTP requests. -/
theorem TranscribeAudio_strip_and_decode_witness :
    (',' ∉ ("data:audio/wav;base64" : String).data) ∧
    stripDataURI ("data:audio/wav;base64" ++ "," ++ "!!") = "!!" ∧
    base64Decode (stripDataURI ("data:audio/wav;base64" ++ "," ++ "!!")) = none ∧
    TranscribeAudio ("data:audio/wav;base64" ++ "," ++ "!!") "key"
      (fun _ => .response 200 "" "hi") = (.error "invalid audio data", 0) :=
  ⟨by decide,
    TranscribeAudio_strip_and_decode.1 "data:audio/wav;base64" "!!" (by decide),
    by decide,
    TranscribeAudio_strip_and_decode.2.2 ("data:audio/wav;base64" ++ "," ++ "!!")
      "key" (fun _ => .response 200 "" "hi") (by decide) (by decide)⟩

/-! ### C9 helpers: the two dispatcher implementations agree -/

theorem appGeminiClassify_eq (r : HttpResult GeminiParse) :
    appGeminiClassify r = geminiClassify r := by
  cases r <;> rfl

theorem appHFClassify_eq (r : HttpResult HFParse) :
    appHFClassify r = hfClassify r := by
  cases r <;> rfl

theorem appOllamaClassify_eq (r : HttpResult String) :
    appOllamaClassify r = ollamaClassify r := by
  cases r <;> rfl

theorem appOllamaStep_eq (p : String) (env : ProviderEnv) :
    appOllamaStep p env = (ollamaFallback p env).1 := by
  have hc : (callOllama p env.ollama).1 = (CallOllama p env.ollama).1 := by
    unfold callOllama CallOllama
    rw [appOllamaClassify_eq]
  unfold appOllamaStep ollamaFallback
  rw [hc]
  cases hr : (CallOllama p env.ollama).1 <;> rfl

theorem appHfStep_eq (p : String) (env : ProviderEnv) :
    appHfStep p env = (hfFallback p env).1 := by
  have hc : (callHuggingFaceText p env.hfKey env.hf).1 =
      (CallHuggingFaceText p env.hfKey env.hf).1 := by
    unfold callHuggingFaceText CallHuggingFaceText
    rw [appHFClassify_eq]
  unfold appHfStep
  rw [hc]
  by_cases hk : env.hfKey = ""
  · rw [hk, CallHuggingFaceText_empty_key, hfFallback_skip p env hk]
    exact appOllamaStep_eq p env
  · cases hr : (CallHuggingFaceText p env.hfKey env.hf).1 with
    | error e =>
      have h2 : isNonemptySuccess (CallHuggingFaceText p env.hfKey env.hf).1 = false := by
        rw [hr]; rfl
      rw [hfFallback_fst_of_fail p env h2]
      exact appOllamaStep_eq p env
    | ok t =>
      by_cases ht : t = ""
      · subst ht
        have h2 : isNonemptySuccess (CallHuggingFaceText p env.hfKey env.hf).1 = false := by
          rw [hr]; rfl
        rw [hfFallback_fst_of_fail p env h2]
        exact appOllamaStep_eq p env
      · rw [hfFallback_success p env t hk hr ht]
        simp [ht]

/-- C9: the two independent dispatcher implementations — `App.callAI`
in the main package and `CallAI` in the `ai` package — return the same
result string for every prompt, given the same resolved credentials and
the same per-provider HTTP outcomes. -/
theorem callAI_refines_CallAI (p : String) (env : ProviderEnv) :
    callAI p env = (CallAI p env).1 := by
  have hc : (callGemini p env.geminiKey env.gemini).1 =
      (CallGemini p env.geminiKey env.gemini).1 := by
    unfold callGemini CallGemini
    rw [appGeminiClassify_eq]
  unfold callAI
  rw [hc]
  by_cases hk : env.geminiKey = ""
  · have h2 : (CallAI p env).1 = (hfFallback p env).1 := by
      unfold CallAI
      rw [if_pos hk]
    rw [hk, CallGemini_empty_key, h2]
    exact appHfStep_eq p env
  · cases hr : (CallGemini p env.geminiKey env.gemini).1 with
    | error e =>
      have h2 : isNonemptySuccess (CallGemini p env.geminiKey env.gemini).1 = false := by
        rw [hr]; rfl
      rw [CallAI_fst_of_gemini_fail p env h2]
      exact appHfStep_eq p env
    | ok t =>
      by_cases ht : t = ""
      · subst ht
        have h2 : isNonemptySuccess (CallGemini p env.geminiKey env.gemini).1 = false := by
          rw [hr]; rfl
        rw [CallAI_fst_of_gemini_fail p env h2]
        exact appHfStep_eq p env
      · have h2 : CallAI p env = (t, [Provider.gemini]) := by
          unfold CallAI
          rw [if_neg hk, hr]
          simp [ht]
        rw [h2]
        simp [ht]

/-! ### C10 helper -/

theorem hfFallback_fst_nonempty (p : String) (env : ProviderEnv) :
    (hfFallback p env).1 ≠ "" := by
  unfold hfFallback
  by_cases hk : env.hfKey = ""
  · rw [if_pos hk]
    exact ollamaFallback_fst_nonempty p env
  · rw [if_neg hk]
    cases hr : (CallHuggingFaceText p env.hfKey env.hf).1 with
    | error e => exact ollamaFallback_fst_nonempty p env
    | ok t =>
      by_cases ht : t = ""
      · subst ht
        exact ollamaFallback_fst_nonempty p env
      · simp [ht]

/-- C10: the dispatcher never returns the empty string: successes are
returned only when non-empty (and the Ollama classification errors on
an empty `response` field), and the failure string carries the
non-empty fixed prefix. -/
theorem CallAI_never_empty (p : String) (env : ProviderEnv) :
    (CallAI p env).1 ≠ "" ∧
    (∀ (net : Nat → HttpResult String) (st : Nat) (raw : String),
      net 0 = .response st raw "" →
      (CallOllama p net).1 = .error "no response from Ollama") := by
  constructor
  · unfold CallAI
    by_cases hk : env.geminiKey = ""
    · rw [if_pos hk]
      exact hfFallback_fst_nonempty p env
    · rw [if_neg hk]
      cases hr : (CallGemini p env.geminiKey env.gemini).1 with
      | error e => exact hfFallback_fst_nonempty p env
      | ok t =>
        by_cases ht : t = ""
        · subst ht
          exact hfFallback_fst_nonempty p env
        · simp [ht]
  · intro net st raw hnet
    unfold CallOllama ollamaClassify
    rw [hnet]
    rfl

/-- C10 witness: the all-failed environment still yields a non-empty
string, and an Ollama response with empty body is classified as the
"no response from Ollama" error. -/
theorem CallAI_never_empty_witness :
    (CallAI "p" allFailEnv).1 ≠ "" ∧
    (CallOllama "p" allFailEnv.ollama).1 = .error "no response from Ollama" :=
  ⟨(CallAI_never_empty "p" allFailEnv).1,
    (CallAI_never_empty "p" allFailEnv).2 allFailEnv.ollama 200 "{}" rfl⟩

end LocalNotion
